import Mathlib

/-!
# Verification of the go-fuse control loop (`fuse/fuse.go`)

A shallow embedding of the request lifecycle engine of `fuse/fuse.go`:
buffer reuse (`newRequest`/`readRequest`), message decoding
(`chopMessage`), dispatch and reply (`handle`, `serialize`, `Write`),
timing/discard (`discardRequest`) and the worker loop's error
classification (`loop`).

Modelling conventions:
* A Go byte slice backed by the pool is `GoBuf`: the identity of its
  backing array, its capacity, its logical length, and `hdr` — the value
  the leading bytes of the backing array reinterpret to under the fixed
  `InHeader` wire layout (the wire schema itself is external to the
  core, so header fields are carried as a record rather than re-decoded
  from bytes).  Re-slicing `s[0:n]` keeps the array and capacity and
  sets the length (Go would panic when `n > cap`; call sites below
  always satisfy the bound).
* Nil pointers / nil slices are `Option`; a Go nil-pointer dereference
  is an explicit `GoPanic` outcome instead of an arbitrary value.
* Machine integers: `Unique` (uint64), lengths and opcodes are `Nat`;
  statuses and errnos are `Int`; the one place the code narrows
  (`uint32(...)` for the reply length) takes `% 2^32`.
* The filesystem handler is external (`RawFileSystem`): it is modelled
  as an arbitrary function that, per the registry contract, populates
  status, the fixed output payload and the flat payload of the request.
-/

namespace GoFuse

/-- The fixed maximum message size, `bufSize = 1 << 16`. -/
def bufSize : Nat := 65536

/-- Modelled from the spec: the fixed request-header size
(`unsafe.Sizeof(InHeader{})`; the struct itself lives in the wire-schema
file outside the core). 40 bytes for the FUSE request header. -/
def inHeaderSize : Nat := 40

/-- Modelled from the spec: the fixed reply-header size
(`unsafe.Sizeof(OutHeader{})`). 16 bytes: length, signed status,
correlation id. -/
def outHeaderSize : Nat := 16

/-- Success status. -/
def OK : Int := 0

/-- Generic I/O-error status (`EIOcode`). -/
def EIOcode : Int := 5

/-- Not-implemented status / errno (`ENOSYS`). -/
def ENOSYS : Int := 38

/-- Transient "entry vanished" read errno (`ENOENT`). -/
def ENOENT : Int := 2

/-- Terminal "unmounted" read errno (`ENODEV`). -/
def ENODEV : Int := 19

/-- Modelled from the spec: the numeric opcode of the no-reply forget
notification (`FUSE_FORGET`, from the wire-schema file). -/
def FUSE_FORGET : Nat := 2

/-- The fields of the request wire header that the core reads
(`Opcode`, `Unique`, `NodeId`); the remaining fixed fields are never
consumed by the control loop. -/
structure InHeader where
  Opcode : Nat
  Unique : Nat
  NodeId : Nat
deriving DecidableEq

/-- A pool-backed Go byte slice: backing-array identity, capacity,
logical length, and the reinterpretation of the array's leading bytes
as an `InHeader`. -/
structure GoBuf where
  id : Nat
  cap : Nat
  len : Nat
  hdr : InHeader
deriving DecidableEq

/-- Re-slicing `s[0:n]`: same backing array and capacity, logical length `n`.
(Go panics when `n > s.cap`; every use below satisfies `n ≤ cap`.) -/
def GoBuf.reslice (s : GoBuf) (n : Nat) : GoBuf :=
  { s with len := n }

/-- The reply header (`OutHeader`): declared total length, signed
status, echoed correlation id. -/
structure OutHeader where
  Length : Nat
  Status : Int
  Unique : Nat
deriving DecidableEq

/-- The `outHeaderBytes` buffer built by `serialize`: its byte length
(`sizeOfOutHeader + dataLength`) and the header written at its start. -/
structure OutBytes where
  size : Nat
  hdr : OutHeader
deriving DecidableEq

/-- The `request` record of `fuse.go`.  Views into `inputBuf` are kept
as presence/length: `inData` is the non-nilness of the per-op data
pointer, `arg` the length of the flat-tail slice (`none` = nil slice),
`flatData` the length of the flat reply payload (`none` = nil). -/
structure request where
  inputBuf : GoBuf
  inHeader : Option InHeader
  inData : Bool
  arg : Option Nat
  outData : Bool
  status : Int
  flatData : Option Nat
  outHeaderBytes : Option OutBytes
  startNs : Int
  preWriteNs : Int
deriving DecidableEq

/-- The value of `len(req.flatData)` — a nil slice has length 0. -/
def flatLen (req : request) : Nat := req.flatData.getD 0

/-- What a registered handler populates on the request, per the
registry contract (`invoke(...) -> status`, output payload, flat
payload). -/
structure handlerResult where
  status : Int
  outData : Bool
  flatData : Option Nat

/-- A registry entry (`operationHandler`): fixed input size, fixed
output size, and the optional handler capability. -/
structure operationHandler where
  InputSize : Nat
  OutputSize : Nat
  Func : Option (request → handlerResult)

/-- A Go runtime panic observed by the model (nil dereference / call of
a nil function value). -/
inductive GoPanic where
  | nilDeref
deriving DecidableEq

/-- One `LatencyMap.AddMany` entry. -/
structure LatencyArg where
  name : String
  subname : String
  dtNs : Int
deriving DecidableEq

/-- A write issued to the channel: a single write of the reply bytes,
or a vectored write of reply bytes plus flat payload. -/
inductive WriteAction where
  | single (out : OutBytes)
  | vectored (out : OutBytes) (flatSize : Nat)
deriving DecidableEq

/-- An interaction with the buffer pool. -/
inductive PoolEvent where
  | allocBuffer (size : Nat)
  | freeBuffer (flat : Option Nat)
deriving DecidableEq

/-- The ambient state `handle`/`loop` read: the opcode registry
(`getHandler`, external table), whether a `LatencyMap` is installed,
the debug flag, and the clock values observed at the discard and write
steps. -/
structure Env where
  getHandler : Nat → Option operationHandler
  latencyEnabled : Bool
  debug : Bool
  endNs : Int
  writeNs : Int

/-- Modelled from the spec: `operationName`, the registry's
human-readable name for an opcode (used only as a latency key). -/
def operationName (opcode : Nat) : String := toString opcode

/-- Modelled from the spec: `BufferPool.AllocBuffer(size)` returns a
buffer of capacity (and logical length) `size`; its contents — hence
the header reinterpretation `undef` — are undefined until filled. -/
def AllocBuffer (freshId : Nat) (size : Nat) (undef : InHeader) : GoBuf :=
  { id := freshId, cap := size, len := size, hdr := undef }

/-- Method `MountState.newRequest`: recycle `oldReq` (free its flat payload to
the pool, reset every field, re-extend `inputBuf` to `[0:bufSize]`) or
allocate a fresh request from the pool.  The second component lists the
pool interactions performed. -/
def newRequest (oldReq : Option request) (freshId : Nat) (undef : InHeader) :
    request × List PoolEvent :=
  match oldReq with
  | some o =>
    ({ inputBuf := o.inputBuf.reslice bufSize, inHeader := none, inData := false,
       arg := none, outData := false, status := OK, flatData := none,
       outHeaderBytes := none, startNs := 0, preWriteNs := 0 },
     [PoolEvent.freeBuffer o.flatData])
  | none =>
    ({ inputBuf := AllocBuffer freshId bufSize undef, inHeader := none, inData := false,
       arg := none, outData := false, status := OK, flatData := none,
       outHeaderBytes := none, startNs := 0, preWriteNs := 0 },
     [PoolEvent.allocBuffer bufSize])

/-- Method `MountState.readRequest`: the channel read returned `n` bytes (the
backing array's leading bytes now reinterpret to `newHdr`); stamp
`startNs` when a `LatencyMap` is installed; truncate `inputBuf` to
`[0:n]`. -/
def readRequest (latencyEnabled : Bool) (now : Int) (n : Nat) (newHdr : InHeader)
    (req : request) : request :=
  let req := if latencyEnabled then { req with startNs := now } else req
  { req with inputBuf := { req.inputBuf with len := n, hdr := newHdr } }

/-- Method `MountState.discardRequest`: when a `LatencyMap` is installed, add
the two timing entries — dereferencing `req.inHeader.Opcode`, which
panics when no header was ever decoded into the request. -/
def discardRequest (latencyEnabled : Bool) (endNs : Int) (req : request) :
    Except GoPanic (List LatencyArg) :=
  if latencyEnabled then
    match req.inHeader with
    | none => Except.error GoPanic.nilDeref
    | some h =>
      let opname := operationName h.Opcode
      Except.ok
        [{ name := opname, subname := "", dtNs := endNs - req.startNs },
         { name := opname ++ "-write", subname := "", dtNs := endNs - req.preWriteNs }]
  else Except.ok []

/-- Method `MountState.chopMessage`: reject a short header (returning a nil
handler without touching the request); otherwise install the header
view and the argument region, look up the opcode, and apply the
short-argument and fixed-argument splits. -/
def chopMessage (getHandler : Nat → Option operationHandler) (req : request) :
    request × Option operationHandler :=
  if req.inputBuf.len < inHeaderSize then
    (req, none)
  else
    let hdr := req.inputBuf.hdr
    let argLen := req.inputBuf.len - inHeaderSize
    let req1 : request := { req with inHeader := some hdr, arg := some argLen }
    match getHandler hdr.Opcode with
    | none => ({ req1 with status := ENOSYS }, none)
    | some handler =>
      if handler.Func.isNone then
        ({ req1 with status := ENOSYS }, some handler)
      else if argLen < handler.InputSize then
        ({ req1 with status := EIOcode }, some handler)
      else if 0 < handler.InputSize then
        ({ req1 with inData := true, arg := some (argLen - handler.InputSize) },
         some handler)
      else
        (req1, some handler)

/-- The `dataLength` computed by `serialize`: starts as `handler.OutputSize` and is
forced to 0 when `req.outData == nil || req.status != OK`. -/
def dataLengthOf (req : request) (handler : operationHandler) : Nat :=
  if req.outData = false ∨ req.status ≠ OK then 0 else handler.OutputSize

/-- The `outHeaderBytes` buffer `serialize` builds for a request whose
decoded header is `h`. -/
def serializeOut (req : request) (handler : operationHandler) (h : InHeader) : OutBytes :=
  { size := outHeaderSize + dataLengthOf req handler,
    hdr := { Length := (outHeaderSize + dataLengthOf req handler + flatLen req) % 2 ^ 32,
             Status := -req.status,
             Unique := h.Unique } }

/-- Function `serialize`: build `outHeaderBytes` of byte length
`sizeOfOutHeader + dataLength`, where `dataLength` is forced to 0
unless the status is success and an output payload is present; the
header echoes `Unique`, negates the status, and declares
`uint32(sizeOfOutHeader + dataLength + len(flatData))`.  Returns `none`
for the nil-header dereference `req.inHeader.Unique`. -/
def serialize (req : request) (handler : operationHandler) (debug : Bool) :
    Option request :=
  match req.inHeader with
  | none => none
  | some h =>
    let _ := debug
    some { req with outHeaderBytes := some (serializeOut req handler h) }

/-- Method `MountState.Write`: stamp `preWriteNs` when timing, skip a nil
`outHeaderBytes`, otherwise issue a single or vectored channel write. -/
def Write (latencyEnabled : Bool) (writeNs : Int) (req : request) :
    request × Option WriteAction :=
  let req := if latencyEnabled then { req with preWriteNs := writeNs } else req
  match req.outHeaderBytes with
  | none => (req, none)
  | some out =>
    match req.flatData with
    | none => (req, some (WriteAction.single out))
    | some fl => (req, some (WriteAction.vectored out fl))

/-- The `MountState.dispatch` body: invoke the handler capability, which
populates status, output payload and flat payload on the request. -/
def dispatch (f : request → handlerResult) (req : request) : request :=
  let r := f req
  { req with status := r.status, outData := r.outData, flatData := r.flatData }

/-- Everything one `handle` call did: whether it panicked, the final
request state, the channel write it issued (if any), the latency
entries recorded by the deferred discard, and whether the filesystem
handler was invoked. -/
structure HandleOutcome where
  panicked : Option GoPanic
  req : request
  writeAction : Option WriteAction
  latency : List LatencyArg
  dispatched : Bool
deriving DecidableEq

/-- The deferred `discardRequest` at the end of `handle`. -/
def finishDiscard (env : Env) (req : request) (act : Option WriteAction)
    (disp : Bool) : HandleOutcome :=
  match discardRequest env.latencyEnabled env.endNs req with
  | Except.error p => ⟨some p, req, act, [], disp⟩
  | Except.ok lat => ⟨none, req, act, lat, disp⟩

/-- The tail of `handle` after the dispatch decision: skip
encode/write for `FUSE_FORGET` (the opcode test dereferences
`req.inHeader`), otherwise `serialize` then `Write`; finally the
deferred discard. -/
def afterDispatch (env : Env) (req : request) (handler : operationHandler)
    (disp : Bool) : HandleOutcome :=
  match req.inHeader with
  | none => ⟨some GoPanic.nilDeref, req, none, [], disp⟩
  | some hdr =>
    if hdr.Opcode ≠ FUSE_FORGET then
      match serialize req handler env.debug with
      | none => ⟨some GoPanic.nilDeref, req, none, [], disp⟩
      | some reqS =>
        let (reqW, act) := Write env.latencyEnabled env.writeNs reqS
        finishDiscard env reqW act disp
    else finishDiscard env req none disp

/-- Method `MountState.handle`: chop the message; a nil handler returns early
(running only the deferred discard); dispatch only when the status is
still success (a nil handler capability would be a nil function call);
then encode/write unless the opcode is `FUSE_FORGET`. -/
def handle (env : Env) (req0 : request) : HandleOutcome :=
  let req1 := (chopMessage env.getHandler req0).1
  match (chopMessage env.getHandler req0).2 with
  | none => finishDiscard env req1 none false
  | some handler =>
    if req1.status = OK then
      match handler.Func with
      | none => ⟨some GoPanic.nilDeref, req1, none, [], false⟩
      | some f => afterDispatch env (dispatch f req1) handler true
    else
      afterDispatch env req1 handler false

/-- The fate of one iteration of `MountState.loop` after the read. -/
inductive LoopIter where
  | panicked (p : GoPanic)
  | retry (lat : List LatencyArg)
  | stopClean
  | stopLogged
  | handled (o : HandleOutcome)
deriving DecidableEq

/-- One iteration of `MountState.loop` after `readRequest` returned
`readErr` (`none` = success): `ENOENT` discards and retries, `ENODEV`
and `ENOSYS` break cleanly, any other errno logs and breaks, success
handles the request. -/
def loopStep (env : Env) (req : request) (readErr : Option Int) : LoopIter :=
  match readErr with
  | some errno =>
    if errno = ENOENT then
      match discardRequest env.latencyEnabled env.endNs req with
      | Except.error p => LoopIter.panicked p
      | Except.ok lat => LoopIter.retry lat
    else if errno = ENODEV then LoopIter.stopClean
    else if errno = ENOSYS then LoopIter.stopClean
    else LoopIter.stopLogged
  | none => LoopIter.handled (handle env req)

/-- One full recycle-and-read cycle of the worker loop, as it affects
the input buffer: `newRequest` on the previous request, then a read
returning `n` bytes whose leading reinterpretation is `h`. -/
def cycle (req : request) (rd : Nat × InHeader) : request :=
  readRequest false 0 rd.1 rd.2 (newRequest (some req) 0 rd.2).1

/-! ## Helper lemmas -/

theorem finishDiscard_writeAction (env : Env) (req : request) (act : Option WriteAction)
    (d : Bool) : (finishDiscard env req act d).writeAction = act := by
  unfold finishDiscard
  cases discardRequest env.latencyEnabled env.endNs req <;> rfl

theorem finishDiscard_dispatched (env : Env) (req : request) (act : Option WriteAction)
    (d : Bool) : (finishDiscard env req act d).dispatched = d := by
  unfold finishDiscard
  cases discardRequest env.latencyEnabled env.endNs req <;> rfl

theorem finishDiscard_req (env : Env) (req : request) (act : Option WriteAction)
    (d : Bool) : (finishDiscard env req act d).req = req := by
  unfold finishDiscard
  cases discardRequest env.latencyEnabled env.endNs req <;> rfl

theorem serialize_eq (req : request) (handler : operationHandler) (dbg : Bool)
    (h : InHeader) (hh : req.inHeader = some h) :
    serialize req handler dbg =
      some { req with outHeaderBytes := some (serializeOut req handler h) } := by
  unfold serialize
  rw [hh]

theorem Write_fst_outHeaderBytes (l : Bool) (w : Int) (req : request) :
    (Write l w req).1.outHeaderBytes = req.outHeaderBytes := by
  unfold Write
  cases l <;> cases h : req.outHeaderBytes <;> simp_all <;>
    cases req.flatData <;> simp_all

theorem Write_fst_status (l : Bool) (w : Int) (req : request) :
    (Write l w req).1.status = req.status := by
  unfold Write
  cases l <;> cases h : req.outHeaderBytes <;> simp_all <;>
    cases req.flatData <;> simp_all

theorem Write_fst_inHeader (l : Bool) (w : Int) (req : request) :
    (Write l w req).1.inHeader = req.inHeader := by
  unfold Write
  cases l <;> cases h : req.outHeaderBytes <;> simp_all <;>
    cases req.flatData <;> simp_all

theorem Write_snd_single (l : Bool) (w : Int) (req : request) (out : OutBytes)
    (h1 : req.outHeaderBytes = some out) (h2 : req.flatData = none) :
    (Write l w req).2 = some (WriteAction.single out) := by
  unfold Write
  cases l <;> simp [h1, h2]

theorem dispatch_inHeader (f : request → handlerResult) (req : request) :
    (dispatch f req).inHeader = req.inHeader := rfl

theorem dispatch_outHeaderBytes (f : request → handlerResult) (req : request) :
    (dispatch f req).outHeaderBytes = req.outHeaderBytes := rfl

theorem afterDispatch_eq (env : Env) (req : request) (handler : operationHandler)
    (d : Bool) (hdr : InHeader) (hh : req.inHeader = some hdr)
    (hop : hdr.Opcode ≠ FUSE_FORGET) :
    afterDispatch env req handler d =
      finishDiscard env
        (Write env.latencyEnabled env.writeNs
          { req with outHeaderBytes := some (serializeOut req handler hdr) }).1
        (Write env.latencyEnabled env.writeNs
          { req with outHeaderBytes := some (serializeOut req handler hdr) }).2 d := by
  unfold afterDispatch
  rw [hh]
  simp only [hop, if_pos, ne_eq, not_false_eq_true, if_true,
    serialize_eq req handler env.debug hdr hh]
  rw [hh]

theorem afterDispatch_forget (env : Env) (req : request) (handler : operationHandler)
    (d : Bool) (hdr : InHeader) (hh : req.inHeader = some hdr)
    (hop : hdr.Opcode = FUSE_FORGET) :
    afterDispatch env req handler d = finishDiscard env req none d := by
  unfold afterDispatch
  rw [hh]
  simp [hop]

/-- The reply buffer `serialize` leaves on the request, when it does
not panic. -/
def serializedReply (req : request) (handler : operationHandler) (dbg : Bool) :
    Option OutBytes :=
  (serialize req handler dbg).bind request.outHeaderBytes

/-! ## C1 -/

/-- C1: for every request that is decoded far enough to produce an
encoded reply (its header view is populated), the correlation id
(`Unique`) of the reply header built by `serialize` equals the
correlation id of the request header it answers. -/
theorem serialize_echoes_correlation_id (req : request) (handler : operationHandler)
    (dbg : Bool) (h : InHeader) (hh : req.inHeader = some h) :
    (serializedReply req handler dbg).map (fun out => out.hdr.Unique) = some h.Unique := by
  simp [serializedReply, serialize_eq req handler dbg h hh, serializeOut]

/-- Witness for C1 at a concrete decoded request with correlation id 77. -/
theorem serialize_echoes_correlation_id_witness :
    (serializedReply
        ⟨⟨0, 65536, 48, ⟨1, 77, 5⟩⟩, some ⟨1, 77, 5⟩, true, some 0, true, 0, none, none, 0, 0⟩
        ⟨8, 16, some fun _ => ⟨0, true, none⟩⟩ false).map (fun out => out.hdr.Unique) =
      some 77 :=
  serialize_echoes_correlation_id _ _ false ⟨1, 77, 5⟩ rfl

/-! ## C5 -/

/-- C5, amended: the declared reply length is `header size + dataLength
+ flat length`, where the payload omission rule forces `dataLength` to
0 for a non-success status or absent output payload — so a success
status with an output payload declares `header + output size + flat`,
while a non-success status declares `header + flat` (header size
exactly only when no flat payload is attached).  The reply buffer
itself (`size`) omits the fixed payload on non-success. -/
theorem serialize_declared_length (req : request) (handler : operationHandler)
    (dbg : Bool) (h : InHeader) (hh : req.inHeader = some h)
    (hfit : outHeaderSize + handler.OutputSize + flatLen req < 2 ^ 32) :
    (req.status = OK → req.outData = true →
      (serializedReply req handler dbg).map (fun out => out.hdr.Length) =
          some (outHeaderSize + handler.OutputSize + flatLen req) ∧
        (serializedReply req handler dbg).map (fun out => out.size) =
          some (outHeaderSize + handler.OutputSize)) ∧
    (req.status ≠ OK →
      (serializedReply req handler dbg).map (fun out => out.hdr.Length) =
          some (outHeaderSize + flatLen req) ∧
        (serializedReply req handler dbg).map (fun out => out.size) =
          some outHeaderSize) := by
  have hbase : outHeaderSize + 0 + flatLen req < 2 ^ 32 := by omega
  constructor
  · intro hs ho
    simp [serializedReply, serialize_eq req handler dbg h hh, serializeOut,
      dataLengthOf, hs, ho, Nat.mod_eq_of_lt hfit]
    omega
  · intro hs
    simp [serializedReply, serialize_eq req handler dbg h hh, serializeOut,
      dataLengthOf, hs, Nat.mod_eq_of_lt hbase]
    omega

/-- Witness for C5's amended statement: a success reply with output
size 128 and flat length 7 declares 151 bytes; an EIOcode reply with no
flat payload declares exactly the 16 header bytes. -/
theorem serialize_declared_length_witness :
    ((serializedReply
          ⟨⟨0, 65536, 48, ⟨1, 3, 4⟩⟩, some ⟨1, 3, 4⟩, true, some 0, true, 0, some 7, none, 0, 0⟩
          ⟨8, 128, some fun _ => ⟨0, true, none⟩⟩ false).map (fun out => out.hdr.Length) =
        some (outHeaderSize + 128 +
          flatLen ⟨⟨0, 65536, 48, ⟨1, 3, 4⟩⟩, some ⟨1, 3, 4⟩, true, some 0, true, 0, some 7, none, 0, 0⟩)) ∧
    ((serializedReply
          ⟨⟨0, 65536, 48, ⟨1, 3, 4⟩⟩, some ⟨1, 3, 4⟩, true, some 0, true, 5, none, none, 0, 0⟩
          ⟨8, 128, some fun _ => ⟨0, true, none⟩⟩ false).map (fun out => out.hdr.Length) =
        some (outHeaderSize +
          flatLen ⟨⟨0, 65536, 48, ⟨1, 3, 4⟩⟩, some ⟨1, 3, 4⟩, true, some 0, true, 5, none, none, 0, 0⟩)) :=
  ⟨((serialize_declared_length _ _ false ⟨1, 3, 4⟩ rfl (by decide)).1 rfl rfl).1,
   ((serialize_declared_length _ _ false ⟨1, 3, 4⟩ rfl (by decide)).2 (by decide)).1⟩

/-- The request of C5's counterexample: a decoded request whose handler
set a flat payload of 3 bytes and then failed with `EIOcode`. -/
def cexC5req : request :=
  ⟨⟨0, 65536, 48, ⟨26, 9, 1⟩⟩, some ⟨26, 9, 1⟩, true, some 0, true, 5, some 3, none, 0, 0⟩

/-- The registry entry of C5's counterexample. -/
def cexC5handler : operationHandler :=
  ⟨0, 16, some fun _ => ⟨0, true, none⟩⟩

/-- C5 counterexample: a non-success reply whose request still carries
a flat payload declares `header size + flat length` (19), not the
header size (16) the claim requires. -/
theorem serialize_error_length_counterexample :
    cexC5req.status ≠ OK ∧
      (serializedReply cexC5req cexC5handler false).map (fun out => out.hdr.Length) =
        some 19 ∧
      (19 : Nat) ≠ outHeaderSize := by
  refine ⟨by decide, by decide, by decide⟩

/-! ## C9 -/

/-- C9, amended: every buffer handed out for a read has capacity equal
to `bufSize` (the fresh pool allocation has that capacity, and the
capacity is preserved across any number of recycle-and-read cycles);
after a release/acquire (recycle) cycle the buffer's logical length is
reset to the full capacity `bufSize` — not to zero — before the read
truncates it to the bytes received. -/
theorem buffer_capacity_invariant (o : request) (freshId : Nat) (undef : InHeader)
    (reads : List (Nat × InHeader)) (req : request)
    (hcap : req.inputBuf.cap = bufSize) :
    ((newRequest none freshId undef).1.inputBuf.cap = bufSize ∧
      (newRequest none freshId undef).1.inputBuf.len = bufSize) ∧
    ((newRequest (some o) freshId undef).1.inputBuf.cap = o.inputBuf.cap ∧
      (newRequest (some o) freshId undef).1.inputBuf.len = bufSize) ∧
    (reads.foldl cycle req).inputBuf.cap = bufSize := by
  refine ⟨⟨rfl, rfl⟩, ⟨rfl, rfl⟩, ?_⟩
  induction reads generalizing req with
  | nil => exact hcap
  | cons rd rest ih =>
    have hstep : (cycle req rd).inputBuf.cap = req.inputBuf.cap := rfl
    exact ih (cycle req rd) (hstep.trans hcap)

/-- Witness for C9's amended statement: two concrete cycles (reads of
300 then 24 bytes) preserve capacity 65536. -/
theorem buffer_capacity_invariant_witness :
    (([(300, ⟨1, 2, 3⟩), (24, ⟨4, 5, 6⟩)] :
        List (Nat × InHeader)).foldl cycle
      ⟨⟨0, 65536, 48, ⟨1, 2, 3⟩⟩, none, false, none, false, 0, none, none, 0, 0⟩).inputBuf.cap =
      bufSize :=
  (buffer_capacity_invariant
    ⟨⟨0, 65536, 48, ⟨1, 2, 3⟩⟩, none, false, none, false, 0, none, none, 0, 0⟩ 0 ⟨1, 2, 3⟩
    [(300, ⟨1, 2, 3⟩), (24, ⟨4, 5, 6⟩)]
    ⟨⟨0, 65536, 48, ⟨1, 2, 3⟩⟩, none, false, none, false, 0, none, none, 0, 0⟩ rfl).2.2

/-- C9 counterexample: recycling a request whose buffer was truncated
to 24 bytes re-extends the logical length to `bufSize = 65536`, not to
the zero length the claim requires. -/
theorem buffer_recycle_length_counterexample :
    (newRequest
        (some ⟨⟨0, 65536, 24, ⟨1, 2, 3⟩⟩, none, false, none, false, 0, none, none, 0, 0⟩)
        7 ⟨0, 0, 0⟩).1.inputBuf.len = 65536 ∧ (65536 : Nat) ≠ 0 := by
  refine ⟨rfl, by decide⟩

/-! ## C10 -/

/-- C10: recycling a request for the next read reuses the same backing
input buffer (same array identity and capacity, re-extended to the full
`bufSize` length, with no pool allocation), releases the previous flat
payload back to the pool, and resets every other per-request field —
header view, per-op data view, tail, output payload, status, flat
payload, encoded reply bytes, and both timing marks — to its empty
value with the status reset to success. -/
theorem newRequest_recycle_frame (o : request) (freshId : Nat) (undef : InHeader) :
    (newRequest (some o) freshId undef).1.inputBuf.id = o.inputBuf.id ∧
    (newRequest (some o) freshId undef).1.inputBuf.cap = o.inputBuf.cap ∧
    (newRequest (some o) freshId undef).1.inputBuf.len = bufSize ∧
    (newRequest (some o) freshId undef).2 = [PoolEvent.freeBuffer o.flatData] ∧
    (newRequest (some o) freshId undef).1.inHeader = none ∧
    (newRequest (some o) freshId undef).1.inData = false ∧
    (newRequest (some o) freshId undef).1.arg = none ∧
    (newRequest (some o) freshId undef).1.outData = false ∧
    (newRequest (some o) freshId undef).1.status = OK ∧
    (newRequest (some o) freshId undef).1.flatData = none ∧
    (newRequest (some o) freshId undef).1.outHeaderBytes = none ∧
    (newRequest (some o) freshId undef).1.startNs = 0 ∧
    (newRequest (some o) freshId undef).1.preWriteNs = 0 :=
  ⟨rfl, rfl, rfl, rfl, rfl, rfl, rfl, rfl, rfl, rfl, rfl, rfl, rfl⟩

/-! ## C6 -/

/-- C6: a message shorter than the fixed header size fails decoding
(`chopMessage` returns a nil handler) and the filesystem handler is
never invoked; a message whose argument region is shorter than its
registered opcode's declared fixed input size fails decoding with the
request's status set to the I/O-error code and dispatch is skipped. -/
theorem decode_failure_skips_dispatch (env : Env) (req : request)
    (handler : operationHandler) (f : request → handlerResult) :
    (req.inputBuf.len < inHeaderSize →
      (chopMessage env.getHandler req).2 = none ∧
      (handle env req).dispatched = false) ∧
    (¬ req.inputBuf.len < inHeaderSize →
      env.getHandler req.inputBuf.hdr.Opcode = some handler →
      handler.Func = some f →
      req.inputBuf.len - inHeaderSize < handler.InputSize →
      (handle env req).req.status = EIOcode ∧
      (handle env req).dispatched = false) := by
  constructor
  · intro hlt
    have hchop : chopMessage env.getHandler req = (req, none) := by
      unfold chopMessage
      rw [if_pos hlt]
    refine ⟨by rw [hchop], ?_⟩
    unfold handle
    rw [hchop]
    exact finishDiscard_dispatched env req none false
  · intro hge hg hf hshort
    have hchop : chopMessage env.getHandler req =
        ({ req with
            inHeader := some req.inputBuf.hdr,
            arg := some (req.inputBuf.len - inHeaderSize),
            status := EIOcode },
          some handler) := by
      unfold chopMessage
      rw [if_neg hge]
      simp only [hg, hf, Option.isNone_some, Bool.false_eq_true, if_false, if_pos hshort]
    have hstat : ¬ (({ req with
        inHeader := some req.inputBuf.hdr,
        arg := some (req.inputBuf.len - inHeaderSize),
        status := EIOcode } : request).status = OK) := by
      simp [EIOcode, OK]
    unfold handle
    rw [hchop]
    simp only [hstat, if_false]
    by_cases hop : req.inputBuf.hdr.Opcode = FUSE_FORGET
    · rw [afterDispatch_forget env _ handler false req.inputBuf.hdr rfl hop,
        finishDiscard_req, finishDiscard_dispatched]
      exact ⟨rfl, rfl⟩
    · rw [afterDispatch_eq env _ handler false req.inputBuf.hdr rfl hop,
        finishDiscard_req, finishDiscard_dispatched, Write_fst_status]
      exact ⟨rfl, rfl⟩

/-- Witness for C6: a 24-byte message is rejected without dispatch, and
a 48-byte message for an opcode requiring 16 argument bytes (only 8
present) ends with status `EIOcode` and no dispatch. -/
theorem decode_failure_skips_dispatch_witness :
    ((chopMessage (fun _ => some ⟨16, 0, some fun _ => ⟨0, false, none⟩⟩)
        ⟨⟨0, 65536, 24, ⟨1, 2, 3⟩⟩, none, false, none, false, 0, none, none, 0, 0⟩).2 = none ∧
      (handle ⟨fun _ => some ⟨16, 0, some fun _ => ⟨0, false, none⟩⟩, false, false, 0, 0⟩
        ⟨⟨0, 65536, 24, ⟨1, 2, 3⟩⟩, none, false, none, false, 0, none, none, 0, 0⟩).dispatched = false) ∧
    ((handle ⟨fun _ => some ⟨16, 0, some fun _ => ⟨0, false, none⟩⟩, false, false, 0, 0⟩
        ⟨⟨0, 65536, 48, ⟨1, 2, 3⟩⟩, none, false, none, false, 0, none, none, 0, 0⟩).req.status = EIOcode ∧
      (handle ⟨fun _ => some ⟨16, 0, some fun _ => ⟨0, false, none⟩⟩, false, false, 0, 0⟩
        ⟨⟨0, 65536, 48, ⟨1, 2, 3⟩⟩, none, false, none, false, 0, none, none, 0, 0⟩).dispatched = false) :=
  ⟨(decode_failure_skips_dispatch
      ⟨fun _ => some ⟨16, 0, some fun _ => ⟨0, false, none⟩⟩, false, false, 0, 0⟩
      ⟨⟨0, 65536, 24, ⟨1, 2, 3⟩⟩, none, false, none, false, 0, none, none, 0, 0⟩
      ⟨16, 0, some fun _ => ⟨0, false, none⟩⟩ (fun _ => ⟨0, false, none⟩)).1 (by decide),
   (decode_failure_skips_dispatch
      ⟨fun _ => some ⟨16, 0, some fun _ => ⟨0, false, none⟩⟩, false, false, 0, 0⟩
      ⟨⟨0, 65536, 48, ⟨1, 2, 3⟩⟩, none, false, none, false, 0, none, none, 0, 0⟩
      ⟨16, 0, some fun _ => ⟨0, false, none⟩⟩ (fun _ => ⟨0, false, none⟩)).2
      (by decide) rfl rfl (by decide)⟩

/-! ## C8 -/

/-- Decoding via `chopMessage` either rejects a short header leaving the request
untouched, or installs the header view while preserving the reply and
flat-payload fields. -/
theorem chopMessage_cases (g : Nat → Option operationHandler) (req : request) :
    (chopMessage g req = (req, none) ∧ req.inputBuf.len < inHeaderSize) ∨
    ((chopMessage g req).1.inHeader = some req.inputBuf.hdr ∧
      (chopMessage g req).1.outHeaderBytes = req.outHeaderBytes ∧
      (chopMessage g req).1.flatData = req.flatData) := by
  unfold chopMessage
  split
  · exact Or.inl ⟨rfl, by assumption⟩
  · right
    cases hg : g req.inputBuf.hdr.Opcode with
    | none =>
      simp only [hg]
      refine ⟨?_, ?_, ?_⟩ <;> trivial
    | some handler =>
      simp only [hg]
      by_cases h1 : handler.Func.isNone = true
      · simp only [h1, if_true]
        refine ⟨?_, ?_, ?_⟩ <;> trivial
      · simp only [h1, if_false]
        by_cases h2 : req.inputBuf.len - inHeaderSize < handler.InputSize
        · simp only [if_pos h2]
          refine ⟨?_, ?_, ?_⟩ <;> trivial
        · simp only [if_neg h2]
          by_cases h3 : 0 < handler.InputSize
          · simp only [if_pos h3]
            refine ⟨?_, ?_, ?_⟩ <;> trivial
          · simp only [if_neg h3]
            refine ⟨?_, ?_, ?_⟩ <;> trivial

/-- C8: a request whose message carries the no-reply opcode
(`FUSE_FORGET`) never has a reply encoded or written by `handle`,
whatever the registry, the handler outcome, or the decode result. -/
theorem forget_never_writes (env : Env) (req : request)
    (hop : req.inputBuf.hdr.Opcode = FUSE_FORGET)
    (hout : req.outHeaderBytes = none) :
    (handle env req).writeAction = none ∧
    (handle env req).req.outHeaderBytes = none := by
  unfold handle
  rcases chopMessage_cases env.getHandler req with ⟨heq, _⟩ | ⟨hhdr, houtp, _⟩
  · simp only [heq]
    refine ⟨finishDiscard_writeAction _ _ _ _, ?_⟩
    rw [finishDiscard_req]
    exact hout
  · cases hOpt : (chopMessage env.getHandler req).2 with
    | none =>
      simp only [hOpt]
      refine ⟨finishDiscard_writeAction _ _ _ _, ?_⟩
      rw [finishDiscard_req]
      exact houtp.trans hout
    | some handler =>
      simp only [hOpt]
      by_cases hs : (chopMessage env.getHandler req).1.status = OK
      · rw [if_pos hs]
        cases hfun : handler.Func with
        | none =>
          simp only [hfun]
          exact ⟨trivial, houtp.trans hout⟩
        | some f =>
          simp only [hfun]
          rw [afterDispatch_forget env (dispatch f (chopMessage env.getHandler req).1)
              handler true req.inputBuf.hdr ((dispatch_inHeader f _).trans hhdr) hop]
          refine ⟨finishDiscard_writeAction _ _ _ _, ?_⟩
          rw [finishDiscard_req, dispatch_outHeaderBytes]
          exact houtp.trans hout
      · rw [if_neg hs,
          afterDispatch_forget env _ handler false req.inputBuf.hdr hhdr hop]
        refine ⟨finishDiscard_writeAction _ _ _ _, ?_⟩
        rw [finishDiscard_req]
        exact houtp.trans hout

/-- Witness for C8: a forget message whose handler runs and even sets a
flat payload still produces no encoded reply and no write. -/
theorem forget_never_writes_witness :
    (handle ⟨fun _ => some ⟨8, 0, some fun _ => ⟨0, false, some 9⟩⟩, true, false, 4, 4⟩
        ⟨⟨0, 65536, 48, ⟨2, 21, 3⟩⟩, none, false, none, false, 0, none, none, 0, 0⟩).writeAction =
      none ∧
    (handle ⟨fun _ => some ⟨8, 0, some fun _ => ⟨0, false, some 9⟩⟩, true, false, 4, 4⟩
        ⟨⟨0, 65536, 48, ⟨2, 21, 3⟩⟩, none, false, none, false, 0, none, none, 0, 0⟩).req.outHeaderBytes =
      none :=
  forget_never_writes
    ⟨fun _ => some ⟨8, 0, some fun _ => ⟨0, false, some 9⟩⟩, true, false, 4, 4⟩
    ⟨⟨0, 65536, 48, ⟨2, 21, 3⟩⟩, none, false, none, false, 0, none, none, 0, 0⟩ rfl rfl

/-- The request state `chopMessage` produces on the short-argument
path: header and argument views installed, status forced to `EIOcode`. -/
def chopEIOreq (req : request) : request :=
  { req with
      inHeader := some req.inputBuf.hdr,
      arg := some (req.inputBuf.len - inHeaderSize),
      status := EIOcode }

/-- The request state `chopMessage` produces on the unknown-opcode and
missing-handler paths: header and argument views installed, status
forced to `ENOSYS`. -/
def chopENOSYS (req : request) : request :=
  { req with
      inHeader := some req.inputBuf.hdr,
      arg := some (req.inputBuf.len - inHeaderSize),
      status := ENOSYS }

theorem afterDispatch_dispatched (env : Env) (req : request)
    (handler : operationHandler) (d : Bool) (hdr : InHeader)
    (hh : req.inHeader = some hdr) :
    (afterDispatch env req handler d).dispatched = d := by
  by_cases hop : hdr.Opcode ≠ FUSE_FORGET
  · rw [afterDispatch_eq env req handler d hdr hh hop]
    exact finishDiscard_dispatched _ _ _ _
  · rw [afterDispatch_forget env req handler d hdr hh (not_not.mp hop)]
    exact finishDiscard_dispatched _ _ _ _

theorem afterDispatch_noflat_writeAction (env : Env) (req : request)
    (handler : operationHandler) (d : Bool) (hdr : InHeader)
    (hh : req.inHeader = some hdr) (hop : hdr.Opcode ≠ FUSE_FORGET)
    (hflat : req.flatData = none) :
    (afterDispatch env req handler d).writeAction =
      some (WriteAction.single (serializeOut req handler hdr)) := by
  rw [afterDispatch_eq env req handler d hdr hh hop, finishDiscard_writeAction]
  exact Write_snd_single env.latencyEnabled env.writeNs
    { req with outHeaderBytes := some (serializeOut req handler hdr) }
    (serializeOut req handler hdr) rfl hflat

/-! ## C2 -/

/-- C2 counterexample: a 24-byte message — shorter than the fixed
header size — produces no reply at all (nothing is encoded and nothing
is written), where the claim requires a reply with an I/O-error
status. -/
theorem short_header_no_reply_counterexample :
    (handle ⟨fun _ => some ⟨0, 0, some fun _ => ⟨0, false, none⟩⟩, false, false, 0, 0⟩
        ⟨⟨0, 65536, 24, ⟨1, 7, 0⟩⟩, none, false, none, false, 0, none, none, 0, 0⟩).writeAction =
      none ∧
    (handle ⟨fun _ => some ⟨0, 0, some fun _ => ⟨0, false, none⟩⟩, false, false, 0, 0⟩
        ⟨⟨0, 65536, 24, ⟨1, 7, 0⟩⟩, none, false, none, false, 0, none, none, 0, 0⟩).req.outHeaderBytes =
      none ∧
    (handle ⟨fun _ => some ⟨0, 0, some fun _ => ⟨0, false, none⟩⟩, false, false, 0, 0⟩
        ⟨⟨0, 65536, 24, ⟨1, 7, 0⟩⟩, none, false, none, false, 0, none, none, 0, 0⟩).dispatched =
      false :=
  ⟨rfl, rfl, rfl⟩

/-- C2, amended: a message shorter than the fixed header size is
answered with *no* reply at all (and the handler is never invoked); a
message whose argument region is shorter than its registered opcode's
declared fixed input size gets, for a non-forget opcode with no flat
payload attached, a reply with the I/O-error status and a zero-length
payload (16 header bytes only), again without invoking the handler. -/
theorem malformed_message_policy (env : Env) (req : request)
    (handler : operationHandler) (f : request → handlerResult) :
    (req.inputBuf.len < inHeaderSize →
      (handle env req).writeAction = none ∧
      (handle env req).dispatched = false) ∧
    (¬ req.inputBuf.len < inHeaderSize →
      env.getHandler req.inputBuf.hdr.Opcode = some handler →
      handler.Func = some f →
      req.inputBuf.len - inHeaderSize < handler.InputSize →
      req.inputBuf.hdr.Opcode ≠ FUSE_FORGET →
      req.flatData = none →
      (handle env req).dispatched = false ∧
      (handle env req).writeAction =
        some (WriteAction.single
          ⟨outHeaderSize, ⟨outHeaderSize, -EIOcode, req.inputBuf.hdr.Unique⟩⟩)) := by
  constructor
  · intro hlt
    have hchop : chopMessage env.getHandler req = (req, none) := by
      unfold chopMessage
      rw [if_pos hlt]
    unfold handle
    rw [hchop]
    exact ⟨finishDiscard_writeAction _ _ _ _, finishDiscard_dispatched _ _ _ _⟩
  · intro hge hg hf hshort hop hflat
    have hchop : chopMessage env.getHandler req = (chopEIOreq req, some handler) := by
      unfold chopMessage chopEIOreq
      rw [if_neg hge]
      simp only [hg, hf, Option.isNone_some, Bool.false_eq_true, if_false, if_pos hshort]
    have hstat : ¬ (chopEIOreq req).status = OK := by
      simp [chopEIOreq, EIOcode, OK]
    unfold handle
    rw [hchop]
    simp only [hstat, if_false]
    rw [afterDispatch_dispatched env (chopEIOreq req) handler false req.inputBuf.hdr rfl,
      afterDispatch_noflat_writeAction env (chopEIOreq req) handler false req.inputBuf.hdr
        rfl hop hflat]
    refine ⟨rfl, ?_⟩
    simp [chopEIOreq, serializeOut, dataLengthOf, flatLen, hflat, EIOcode, OK, outHeaderSize]

/-- Witness for C2's amended statement: a 24-byte message yields no
write and no dispatch; a 48-byte message for opcode 1 (input size 16,
only 8 argument bytes) yields an EIOcode header-only reply echoing
correlation id 55. -/
theorem malformed_message_policy_witness :
    ((handle ⟨fun _ => some ⟨16, 8, some fun _ => ⟨0, false, none⟩⟩, true, false, 2, 3⟩
        ⟨⟨0, 65536, 24, ⟨1, 55, 0⟩⟩, none, false, none, false, 0, none, none, 0, 0⟩).writeAction =
      none ∧
     (handle ⟨fun _ => some ⟨16, 8, some fun _ => ⟨0, false, none⟩⟩, true, false, 2, 3⟩
        ⟨⟨0, 65536, 24, ⟨1, 55, 0⟩⟩, none, false, none, false, 0, none, none, 0, 0⟩).dispatched =
      false) ∧
    ((handle ⟨fun _ => some ⟨16, 8, some fun _ => ⟨0, false, none⟩⟩, true, false, 2, 3⟩
        ⟨⟨0, 65536, 48, ⟨1, 55, 0⟩⟩, none, false, none, false, 0, none, none, 0, 0⟩).dispatched =
      false ∧
     (handle ⟨fun _ => some ⟨16, 8, some fun _ => ⟨0, false, none⟩⟩, true, false, 2, 3⟩
        ⟨⟨0, 65536, 48, ⟨1, 55, 0⟩⟩, none, false, none, false, 0, none, none, 0, 0⟩).writeAction =
      some (WriteAction.single ⟨outHeaderSize, ⟨outHeaderSize, -EIOcode, 55⟩⟩)) :=
  ⟨(malformed_message_policy
      ⟨fun _ => some ⟨16, 8, some fun _ => ⟨0, false, none⟩⟩, true, false, 2, 3⟩
      ⟨⟨0, 65536, 24, ⟨1, 55, 0⟩⟩, none, false, none, false, 0, none, none, 0, 0⟩
      ⟨16, 8, some fun _ => ⟨0, false, none⟩⟩ (fun _ => ⟨0, false, none⟩)).1 (by decide),
   (malformed_message_policy
      ⟨fun _ => some ⟨16, 8, some fun _ => ⟨0, false, none⟩⟩, true, false, 2, 3⟩
      ⟨⟨0, 65536, 48, ⟨1, 55, 0⟩⟩, none, false, none, false, 0, none, none, 0, 0⟩
      ⟨16, 8, some fun _ => ⟨0, false, none⟩⟩ (fun _ => ⟨0, false, none⟩)).2
      (by decide) rfl rfl (by decide) (by decide) rfl⟩

/-! ## C7 -/

/-- C7 counterexample: a 48-byte message whose opcode (999) has no
registry entry produces no reply at all — the status is set to the
not-implemented code internally, but nothing is encoded or written —
where the claim requires a not-implemented reply to be sent. -/
theorem unknown_opcode_no_reply_counterexample :
    (handle ⟨fun _ => none, false, false, 0, 0⟩
        ⟨⟨0, 65536, 48, ⟨999, 11, 0⟩⟩, none, false, none, false, 0, none, none, 0, 0⟩).req.status =
      ENOSYS ∧
    (handle ⟨fun _ => none, false, false, 0, 0⟩
        ⟨⟨0, 65536, 48, ⟨999, 11, 0⟩⟩, none, false, none, false, 0, none, none, 0, 0⟩).writeAction =
      none ∧
    (handle ⟨fun _ => none, false, false, 0, 0⟩
        ⟨⟨0, 65536, 48, ⟨999, 11, 0⟩⟩, none, false, none, false, 0, none, none, 0, 0⟩).req.outHeaderBytes =
      none :=
  ⟨rfl, rfl, rfl⟩

/-- C7, amended: an opcode with *no registry entry* sets the
not-implemented status but sends no reply (nothing encoded or written)
and never invokes a handler; an opcode whose registry entry *lacks a
handler function* gets, for a non-forget opcode with no flat payload
attached, a not-implemented header-only reply, again without invoking
any handler. -/
theorem unsupported_opcode_policy (env : Env) (req : request)
    (handler : operationHandler) :
    (¬ req.inputBuf.len < inHeaderSize →
      env.getHandler req.inputBuf.hdr.Opcode = none →
      (handle env req).req.status = ENOSYS ∧
      (handle env req).writeAction = none ∧
      (handle env req).dispatched = false) ∧
    (¬ req.inputBuf.len < inHeaderSize →
      env.getHandler req.inputBuf.hdr.Opcode = some handler →
      handler.Func = none →
      req.inputBuf.hdr.Opcode ≠ FUSE_FORGET →
      req.flatData = none →
      (handle env req).dispatched = false ∧
      (handle env req).writeAction =
        some (WriteAction.single
          ⟨outHeaderSize, ⟨outHeaderSize, -ENOSYS, req.inputBuf.hdr.Unique⟩⟩)) := by
  constructor
  · intro hge hg
    have hchop : chopMessage env.getHandler req = (chopENOSYS req, none) := by
      unfold chopMessage chopENOSYS
      rw [if_neg hge]
      simp only [hg]
    unfold handle
    rw [hchop]
    refine ⟨?_, finishDiscard_writeAction _ _ _ _, finishDiscard_dispatched _ _ _ _⟩
    rw [finishDiscard_req]
    rfl
  · intro hge hg hf hop hflat
    have hchop : chopMessage env.getHandler req = (chopENOSYS req, some handler) := by
      unfold chopMessage chopENOSYS
      rw [if_neg hge]
      simp only [hg, hf, Option.isNone_none, if_true]
    have hstat : ¬ (chopENOSYS req).status = OK := by
      simp [chopENOSYS, ENOSYS, OK]
    unfold handle
    rw [hchop]
    simp only [hstat, if_false]
    rw [afterDispatch_dispatched env (chopENOSYS req) handler false req.inputBuf.hdr rfl,
      afterDispatch_noflat_writeAction env (chopENOSYS req) handler false req.inputBuf.hdr
        rfl hop hflat]
    refine ⟨rfl, ?_⟩
    simp [chopENOSYS, serializeOut, dataLengthOf, flatLen, hflat, ENOSYS, OK, outHeaderSize]

/-- Witness for C7's amended statement: an unregistered opcode (999)
yields status 38 and no write; opcode 7 registered without a handler
function yields a header-only not-implemented reply echoing correlation
id 99. -/
theorem unsupported_opcode_policy_witness :
    ((handle ⟨fun _ => none, true, false, 2, 3⟩
        ⟨⟨0, 65536, 48, ⟨999, 11, 0⟩⟩, none, false, none, false, 0, none, none, 0, 0⟩).req.status =
      ENOSYS ∧
     (handle ⟨fun _ => none, true, false, 2, 3⟩
        ⟨⟨0, 65536, 48, ⟨999, 11, 0⟩⟩, none, false, none, false, 0, none, none, 0, 0⟩).writeAction =
      none ∧
     (handle ⟨fun _ => none, true, false, 2, 3⟩
        ⟨⟨0, 65536, 48, ⟨999, 11, 0⟩⟩, none, false, none, false, 0, none, none, 0, 0⟩).dispatched =
      false) ∧
    ((handle ⟨fun _ => some ⟨16, 8, none⟩, true, false, 2, 3⟩
        ⟨⟨0, 65536, 48, ⟨7, 99, 0⟩⟩, none, false, none, false, 0, none, none, 0, 0⟩).dispatched =
      false ∧
     (handle ⟨fun _ => some ⟨16, 8, none⟩, true, false, 2, 3⟩
        ⟨⟨0, 65536, 48, ⟨7, 99, 0⟩⟩, none, false, none, false, 0, none, none, 0, 0⟩).writeAction =
      some (WriteAction.single ⟨outHeaderSize, ⟨outHeaderSize, -ENOSYS, 99⟩⟩)) :=
  ⟨(unsupported_opcode_policy ⟨fun _ => none, true, false, 2, 3⟩
      ⟨⟨0, 65536, 48, ⟨999, 11, 0⟩⟩, none, false, none, false, 0, none, none, 0, 0⟩
      ⟨16, 8, none⟩).1 (by decide) rfl,
   (unsupported_opcode_policy ⟨fun _ => some ⟨16, 8, none⟩, true, false, 2, 3⟩
      ⟨⟨0, 65536, 48, ⟨7, 99, 0⟩⟩, none, false, none, false, 0, none, none, 0, 0⟩
      ⟨16, 8, none⟩).2 (by decide) rfl rfl (by decide) rfl⟩

/-! ## C3 -/

/-- C3 (code defect): with statistics recording enabled
(`LatencyMap` installed), handling a 24-byte message — shorter than the
fixed header size, so no header view was ever decoded — panics: the
deferred timing/discard step dereferences the nil header view
(`req.inHeader.Opcode` in `discardRequest`), crashing the worker
instead of completing the per-request timing step. -/
theorem short_header_discard_panics :
    (handle ⟨fun _ => some ⟨16, 8, some fun _ => ⟨0, false, none⟩⟩, true, false, 10, 10⟩
        ⟨⟨0, 65536, 24, ⟨1, 2, 3⟩⟩, none, false, none, false, 0, none, none, 0, 0⟩).panicked =
      some GoPanic.nilDeref := rfl

/-! ## C4 -/

/-- C4 counterexample: with statistics recording enabled, a read
failing with the transient errno (`ENOENT`) makes the worker panic in
`discardRequest` (the recycled request has no decoded header), rather
than remain RUNNING and retry as the claim requires. The request shown
is exactly the one the loop builds on that path (`newRequest` then a
0-byte failed `readRequest`). -/
theorem transient_retry_panics_counterexample :
    loopStep ⟨fun _ => none, true, false, 9, 9⟩
        (readRequest true 5 0 ⟨0, 0, 0⟩ (newRequest none 0 ⟨0, 0, 0⟩).1) (some ENOENT) =
      LoopIter.panicked GoPanic.nilDeref ∧
    LoopIter.panicked GoPanic.nilDeref ≠ LoopIter.retry [] :=
  ⟨rfl, by decide⟩

/-- C4, amended: when latency recording is disabled, a transient
(`ENOENT`) read failure produces no reply, records nothing, and leaves
the worker running to retry immediately (when latency recording is
enabled the discard step panics instead — see the counterexample);
`ENODEV` and `ENOSYS` stop the worker without error or logging; any
other errno stops the worker after logging. -/
theorem read_error_classification (env : Env) (req : request) (errno : Int) :
    (env.latencyEnabled = false →
      loopStep env req (some ENOENT) = LoopIter.retry []) ∧
    loopStep env req (some ENODEV) = LoopIter.stopClean ∧
    loopStep env req (some ENOSYS) = LoopIter.stopClean ∧
    (errno ≠ ENOENT → errno ≠ ENODEV → errno ≠ ENOSYS →
      loopStep env req (some errno) = LoopIter.stopLogged) := by
  refine ⟨?_, ?_, ?_, ?_⟩
  · intro hlat
    simp [loopStep, discardRequest, hlat]
  · simp [loopStep, ENOENT, ENODEV]
  · simp [loopStep, ENOENT, ENODEV, ENOSYS]
  · intro h1 h2 h3
    simp [loopStep, h1, h2, h3]

/-- Witness for C4's amended statement at a concrete worker state:
`ENOENT` retries with no latency entries, `ENODEV`/`ENOSYS` stop
cleanly, errno 99 stops after logging. -/
theorem read_error_classification_witness :
    loopStep ⟨fun _ => none, false, false, 0, 0⟩
        ⟨⟨0, 65536, 0, ⟨0, 0, 0⟩⟩, none, false, none, false, 0, none, none, 0, 0⟩
        (some ENOENT) = LoopIter.retry [] ∧
    loopStep ⟨fun _ => none, false, false, 0, 0⟩
        ⟨⟨0, 65536, 0, ⟨0, 0, 0⟩⟩, none, false, none, false, 0, none, none, 0, 0⟩
        (some ENODEV) = LoopIter.stopClean ∧
    loopStep ⟨fun _ => none, false, false, 0, 0⟩
        ⟨⟨0, 65536, 0, ⟨0, 0, 0⟩⟩, none, false, none, false, 0, none, none, 0, 0⟩
        (some ENOSYS) = LoopIter.stopClean ∧
    loopStep ⟨fun _ => none, false, false, 0, 0⟩
        ⟨⟨0, 65536, 0, ⟨0, 0, 0⟩⟩, none, false, none, false, 0, none, none, 0, 0⟩
        (some 99) = LoopIter.stopLogged :=
  ⟨(read_error_classification ⟨fun _ => none, false, false, 0, 0⟩
      ⟨⟨0, 65536, 0, ⟨0, 0, 0⟩⟩, none, false, none, false, 0, none, none, 0, 0⟩ 99).1 rfl,
   (read_error_classification ⟨fun _ => none, false, false, 0, 0⟩
      ⟨⟨0, 65536, 0, ⟨0, 0, 0⟩⟩, none, false, none, false, 0, none, none, 0, 0⟩ 99).2.1,
   (read_error_classification ⟨fun _ => none, false, false, 0, 0⟩
      ⟨⟨0, 65536, 0, ⟨0, 0, 0⟩⟩, none, false, none, false, 0, none, none, 0, 0⟩ 99).2.2.1,
   (read_error_classification ⟨fun _ => none, false, false, 0, 0⟩
      ⟨⟨0, 65536, 0, ⟨0, 0, 0⟩⟩, none, false, none, false, 0, none, none, 0, 0⟩ 99).2.2.2
     (by decide) (by decide) (by decide)⟩

end GoFuse
